import Mathlib

/-!
Shallow embedding of the `research_report_agent` repository
(`data_scrapers.py`, `agents.py`, `flask_api.py`) and proofs about it.

Conventions of the embedding:
* Python floats are modelled as exact rationals (`ℚ`); Python's `round(x, 2)`
  (round half to even, i.e. banker's rounding) is modelled by `pyRound2`.
* External collaborators (the yfinance history fetch, the LLM completion call,
  the web search, the markdown renderer, the filesystem) are parameters of the
  functions that call them; a fetch that raises an exception is an `Option`
  returning `none` / an `Except.error` carrying the exception message.
* Python dicts with a fixed key set become Lean structures; the quote mapping,
  whose keys come from iterating a literal dict, is a list of key/value pairs
  in insertion order.
-/

/-- Python's `round` to the nearest integer, ties to even (banker's rounding),
on an exact rational. -/
def roundHalfEven (q : ℚ) : ℤ :=
  if q - ⌊q⌋ < 1/2 then ⌊q⌋
  else if (1 : ℚ)/2 < q - ⌊q⌋ then ⌊q⌋ + 1
  else if ⌊q⌋ % 2 = 0 then ⌊q⌋ else ⌊q⌋ + 1

/-- Python's `round(x, 2)`: round to two decimal places, ties to even. -/
def pyRound2 (q : ℚ) : ℚ := (roundHalfEven (q * 100) : ℚ) / 100

/-- A Python value that is either a float (here: rational) or a string, the
two shapes a field of a quote dict can take in `get_stock_quotes`. -/
inductive PyVal where
  | num (q : ℚ)
  | str (s : String)
deriving DecidableEq, Repr

/-- One entry of the dict returned by `get_stock_quotes`:
`{"price": ..., "prev_close": ..., "change": ..., "change_pct": ...}`. -/
structure QuoteDict where
  price : PyVal
  prev_close : PyVal
  change : PyVal
  change_pct : PyVal
deriving DecidableEq, Repr

/-- The all-`"N/A"` dict stored for an index whose fetch raised:
`{"price": "N/A", "prev_close": "N/A", "change": "N/A", "change_pct": "N/A"}`. -/
def naQuote : QuoteDict :=
  ⟨.str "N/A", .str "N/A", .str "N/A", .str "N/A"⟩

/-- Embedding of `data_scrapers.assess_yield_curve`, applied to the two fetched closes
(10-year `^TNX` and the short-term `^IRX` proxy):
`spread = ten_year - two_year; return spread, "Inverted" if spread < 0 else "Normal"`. -/
def assess_yield_curve (ten_year two_year : ℚ) : ℚ × String :=
  let spread := ten_year - two_year
  (spread, if spread < 0 then "Inverted" else "Normal")

/-- The body of the `try:` block of `get_stock_quotes` for one index, applied
to the fetched history of closing prices (oldest first).  An empty history
makes `hist["Close"].iloc[-1]` raise `IndexError`, which the `except` turns
into the all-`"N/A"` dict; with one row, `prev_close = last_price`; with two
or more, `prev_close` is the second-to-last close.  All four reported numbers
go through `round(_, 2)`. -/
def quoteFromHist (hist : List ℚ) : QuoteDict :=
  match hist.getLast? with
  | none => naQuote
  | some last_price =>
    let prev_close := if hist.length < 2 then last_price
                      else hist.getD (hist.length - 2) 0
    let change := last_price - prev_close
    let change_pct := change / prev_close * 100
    ⟨.num (pyRound2 last_price), .num (pyRound2 prev_close),
     .num (pyRound2 change), .num (pyRound2 change_pct)⟩

/-- The ticker dict of `get_stock_quotes`, in insertion order. -/
def tickers : List (String × String) :=
  [("S&P 500", "^GSPC"), ("Dow Jones", "^DJI"), ("Nasdaq", "^IXIC")]

/-- Embedding of `data_scrapers.get_stock_quotes`.  `fetch` models
`yf.Ticker(symbol).history(period="2d")["Close"]`: `none` is a raised
exception (caught by the per-index `except`, yielding `naQuote`), `some hist`
the fetched closes. -/
def get_stock_quotes (fetch : String → Option (List ℚ)) :
    List (String × QuoteDict) :=
  tickers.map (fun p =>
    (p.1, match fetch p.2 with
          | none => naQuote
          | some hist => quoteFromHist hist))

/-- Dict lookup on the quote mapping (`stock_quotes[name]`); total because all
three keys are always present. -/
def qlookup (l : List (String × QuoteDict)) (k : String) : QuoteDict :=
  ((l.find? (fun p => p.1 = k)).map Prod.snd).getD naQuote

/-- Python's `f"{x:.2f}"` on an exact rational: two decimal places, ties to
even. -/
def formatFixed2 (q : ℚ) : String :=
  let r := roundHalfEven (q * 100)
  let sign := if r < 0 then "-" else ""
  let a := r.natAbs
  let cents := a % 100
  sign ++ toString (a / 100) ++ "." ++
    (if cents < 10 then "0" else "") ++ toString cents

/-- Python's `str()` of a float already rounded to two decimal places: an
integral value prints one trailing zero (`5000.0`), otherwise the minimal one
or two decimal digits (`50.5`, `1.01`). -/
def ratStr (q : ℚ) : String :=
  let sign := if q < 0 then "-" else ""
  let a : ℚ := |q|
  let units := (⌊a⌋).toNat
  let cents := (⌊a * 100⌋).toNat % 100
  if cents = 0 then sign ++ toString units ++ ".0"
  else if cents % 10 = 0 then sign ++ toString units ++ "." ++ toString (cents / 10)
  else sign ++ toString units ++ "." ++
    (if cents < 10 then "0" else "") ++ toString cents

/-- How a quote-dict field prints inside an f-string: `str()` of the float,
or the string itself (`"N/A"`). -/
def PyVal.render : PyVal → String
  | .num q => ratStr q
  | .str s => s

/-- The shared pipeline state dict.  A field is `none` when the key is absent
from the dict (the stage functions read keys with `state.get(key, default)`,
so presence is not guaranteed); `some s` when present with value `s`. -/
structure PipelineState where
  research_notes : Option String
  market_forecast : Option String
  final_report : Option String
deriving DecidableEq, Repr

/-- Environment of `predict_market_trends`: the market-data fetches and the
LLM completion call it performs.  `treasury_yield` is the `^TNX` close
returned by `get_treasury_yield()`, `ten_year`/`two_year` the `^TNX`/`^IRX`
closes fetched inside `assess_yield_curve()`, `fetch` the per-symbol close
history used by `get_stock_quotes()`, and `complete` is
`llm.complete(prompt).text`.  A yield fetch that raises propagates out of the
stage (the spec's UpstreamCallFailure) and is outside this embedding, which
models the runs where those calls return. -/
structure MarketEnv where
  treasury_yield : ℚ
  ten_year : ℚ
  two_year : ℚ
  fetch : String → Option (List ℚ)
  complete : String → String

/-- The fixed tail of the forecast prompt, after the last interpolated
value. -/
def forecastPromptTail : String :=
  "%  |

    ##  **Your Task:**
    ### **Fixed-Income Analysis**
    1️⃣ **Interest Rate Forecast:**
    - Predict how the Fed's next decision might impact bond yields. Will they rise or fall?
    - How will monetary policy affect short-term and long-term interest rates?

    2️⃣ **Corporate Bond Spreads:**
    - Will investors demand higher spreads on corporate debt?
    - Which sectors are most at risk given the latest market developments?

    3️⃣ **Fixed-Income Investment Strategy:**
    - Should traders shift to short-duration bonds, long-term bonds, or inflation-protected securities (TIPS)?
    - How should credit investors adjust their portfolio allocations?

    ---

    ### **Equity Market Analysis**
    4️⃣ **Stock Market Trends:**
    - Analyze the recent movement of the **S&P 500, Dow, and Nasdaq** based on market data.
    - What trends are emerging across sectors (e.g., Tech, Financials, Industrials)?

    5️⃣ **Market Volatility & Risk Sentiment:**
    - Assess investor sentiment based on bond yields and stock performance.
    - Is the market in a \"risk-on\" or \"risk-off\" mode?

    6️⃣ **Equity Investment Strategy:**
    - Should equity investors shift toward defensive stocks (e.g., utilities, healthcare) or growth sectors (e.g., tech, consumer discretionary)?
    - How should traders position themselves in large-cap vs. small-cap equities?

    ---

    ### 🔹 **Final Recommendation**
    7️⃣ **Cross-Market Strategy:**
    - Given the current **bond and equity market conditions**, what is the best approach for institutional investors?
    - Are there opportunities in **sector rotation**, **hedging**, or **alternative assets**?

    Respond with a structured analysis and **clear, actionable strategies** for both fixed-income and equity market participants.
    "

/-- The LLM prompt built by `predict_market_trends` (the f-string at
`agents.py:81-135`), assembled from the treasury yield, the yield-curve
assessment and the three index quotes. -/
def forecastPrompt (env : MarketEnv) : String :=
  let treasury_yield := env.treasury_yield
  let sc := assess_yield_curve env.ten_year env.two_year
  let spread := sc.1
  let curve_status := sc.2
  let stock_quotes := get_stock_quotes env.fetch
  let sp := (qlookup stock_quotes "S&P 500").price
  let sp_change := (qlookup stock_quotes "S&P 500").change
  let sp_change_pct := (qlookup stock_quotes "S&P 500").change_pct
  let dow := (qlookup stock_quotes "Dow Jones").price
  let dow_change := (qlookup stock_quotes "Dow Jones").change
  let dow_change_pct := (qlookup stock_quotes "Dow Jones").change_pct
  let nasdaq := (qlookup stock_quotes "Nasdaq").price
  let nasdaq_change := (qlookup stock_quotes "Nasdaq").change
  let nasdaq_change_pct := (qlookup stock_quotes "Nasdaq").change_pct
  "
    You are a financial analyst specializing in macroeconomics, fixed income, and equity markets.
    Analyze the following real-time market data and predict how these factors will influence short-term trends in both fixed-income and equity markets.

    ## 📉 Market Data:
    - **10-Year Treasury Yield**: " ++ formatFixed2 treasury_yield ++ "%
    - **Yield Curve Status**: " ++ curve_status ++ " (Spread: " ++ formatFixed2 spread ++ "%)

    ## 📈 Stock Market Performance:
    Below is a summary of major US indices, including daily changes in dollar amount and percentage:

    | Index         | Price   | Change ($) | Change (%) |
    |--------------|---------|-----------|-----------|
    | **S&P 500**  | " ++ sp.render ++ "  | " ++ sp_change.render ++ "  | " ++ sp_change_pct.render ++ "%  |
    | **Dow Jones**| " ++ dow.render ++ "  | " ++ dow_change.render ++ "  | " ++ dow_change_pct.render ++ "%  |
    | **Nasdaq**   | " ++ nasdaq.render ++ "  | " ++ nasdaq_change.render ++ "  | " ++ nasdaq_change_pct.render
    ++ forecastPromptTail

/-- What `predict_market_trends` returns: a plain string (the empty-input
sentinel) or the structured hand-off dict
`{"handoff_to": "ReportAgent", "forecast": forecast}`. -/
inductive ForecastOutput where
  | text (s : String)
  | handoff (target forecast : String)
deriving DecidableEq, Repr

/-- Result of one run of the forecast stage: the returned value, the pipeline
state after the run, and whether `llm.complete` was invoked. -/
structure ForecastRun where
  output : ForecastOutput
  state : PipelineState
  modelCalled : Bool
deriving Repr

/-- Embedding of `agents.predict_market_trends`: reads `research_notes` (default `''`)
from the state; when falsy (empty) it returns the sentinel without touching
the market data or the model; otherwise it gathers market data, builds the
prompt, calls the model once, stores the forecast in the state and returns
the hand-off dict naming `ReportAgent`. -/
def predict_market_trends (env : MarketEnv) (st : PipelineState) : ForecastRun :=
  let news_data := st.research_notes.getD ""
  if news_data = "" then
    { output := .text "No data available to generate forecast.",
      state := st, modelCalled := false }
  else
    let forecast := env.complete (forecastPrompt env)
    { output := .handoff "ReportAgent" forecast,
      state := { st with market_forecast := some forecast },
      modelCalled := true }

/-- Environment of `format_report`: quote fetches, the external markdown
renderer (`markdown.markdown(_, extensions=["extra"])`), the `REPORT_PATH`
environment variable (`none` when unset), `os.path.normpath`, and the file
write, whose `Except.error` carries the text of the raised exception. -/
structure FormatEnv where
  fetch : String → Option (List ℚ)
  markdownRender : String → String
  report_path : Option String
  normpath : String → String
  write : String → String → Except String Unit

/-- The nested `format_change` helper of `format_report`: color-coded
change/percent cell, `"N/A"` when either value is a string. -/
def format_change (change change_pct : PyVal) : String :=
  match change, change_pct with
  | .str _, _ => "N/A"
  | .num _, .str _ => "N/A"
  | .num c, .num cp =>
    if 0 < c then
      "<span style=\"color:green;\">+" ++ ratStr c ++ " (+" ++ ratStr cp ++ "%)</span>"
    else if c < 0 then
      "<span style=\"color:red;\">" ++ ratStr c ++ " (" ++ ratStr cp ++ "%)</span>"
    else
      "<span style=\"color:black;\">" ++ ratStr c ++ " (" ++ ratStr cp ++ "%)</span>"

/-- The hand-built HTML quote table of `format_report`
(`agents.py:174-202`). -/
def stockTable (stock_quotes : List (String × QuoteDict)) : String :=
  "
    <h2>📉 Stock Market Overview</h2>
    <table border=\"1\" cellspacing=\"0\" cellpadding=\"5\" style=\"width:100%; text-align:center; border-collapse: collapse;\">
        <tr style=\"background-color: #f4f4f4;\">
            <th>Index</th>
            <th>Price</th>
            <th>Prev Close</th>
            <th>Change ($ & %)</th>
        </tr>
        <tr>
            <td><b>S&P 500</b></td>
            <td>" ++ (qlookup stock_quotes "S&P 500").price.render ++ "</td>
            <td>" ++ (qlookup stock_quotes "S&P 500").prev_close.render ++ "</td>
            <td>" ++ format_change (qlookup stock_quotes "S&P 500").change
                       (qlookup stock_quotes "S&P 500").change_pct ++ "</td>
        </tr>
        <tr>
            <td><b>Dow Jones</b></td>
            <td>" ++ (qlookup stock_quotes "Dow Jones").price.render ++ "</td>
            <td>" ++ (qlookup stock_quotes "Dow Jones").prev_close.render ++ "</td>
            <td>" ++ format_change (qlookup stock_quotes "Dow Jones").change
                       (qlookup stock_quotes "Dow Jones").change_pct ++ "</td>
        </tr>
        <tr>
            <td><b>Nasdaq</b></td>
            <td>" ++ (qlookup stock_quotes "Nasdaq").price.render ++ "</td>
            <td>" ++ (qlookup stock_quotes "Nasdaq").prev_close.render ++ "</td>
            <td>" ++ format_change (qlookup stock_quotes "Nasdaq").change
                       (qlookup stock_quotes "Nasdaq").change_pct ++ "</td>
        </tr>
    </table>
    "

/-- The markdown body of the report (`agents.py:205-213`). -/
def markdownContent (research_notes market_forecast : String) : String :=
  "
# 📊 US Equity & Fixed Income Market Report

## 📰 Key Market News
" ++ research_notes ++ "

" ++ market_forecast ++ "

"

/-- The `final_html` page (`agents.py:219-243`): Markdown-rendered prose plus
the raw HTML quote table, wrapped in the fixed page styling.  (`\x7b` and
`\x7d` are the literal braces of the CSS block, written `{{`/`}}` in the
Python f-string.) -/
def finalHtml (html_content stock_table : String) : String :=
  "<!DOCTYPE html>
    <html lang=\"en\">
    <head>
        <meta charset=\"UTF-8\">
        <meta name=\"viewport\" content=\"width=device-width, initial-scale=1.0\">
        <title>Market Report</title>
        <style>
            body \x7b font-family: Arial, sans-serif; line-height: 1.6; max-width: 900px; margin: auto; padding: 20px; \x7d
            h1, h2, h3 \x7b color: #333; border-bottom: 2px solid #ddd; padding-bottom: 5px; \x7d
            p, li \x7b color: #555; \x7d
            ul \x7b padding-left: 25px; list-style-type: disc; \x7d  /* Circular bullets */
            strong \x7b font-weight: bold; \x7d
            hr \x7b margin: 20px 0; border: 0; border-top: 1px solid #ccc; \x7d
            .footer \x7b text-align: center; font-size: 0.8em; margin-top: 30px; color: #777; \x7d
            table \x7b width: 100%; border-collapse: collapse; text-align: center; \x7d
            th, td \x7b border: 1px solid #ddd; padding: 8px; \x7d
            th \x7b background-color: #f4f4f4; \x7d
        </style>
    </head>
    <body>
        <div>" ++ html_content ++ "</div>
        " ++ stock_table ++ "  <!-- Inject HTML table here -->
        <p class=\"footer\"><strong>Generated by AI Research Agents</strong></p>
    </body>
    </html>"

/-- The document `format_report` renders before attempting to persist it:
placeholder fallbacks for absent state keys, re-fetched quotes, markdown
rendering of the prose, and the final HTML assembly. -/
def renderDocument (env : FormatEnv) (st : PipelineState) : String :=
  let research_notes := st.research_notes.getD "No research notes available."
  let market_forecast := st.market_forecast.getD "Market forecast not generated."
  let stock_quotes := get_stock_quotes env.fetch
  let stock_table := stockTable stock_quotes
  let markdown_content := markdownContent research_notes market_forecast
  let html_content := env.markdownRender markdown_content
  finalHtml html_content stock_table

/-- Embedding of `agents.format_report`: renders the document, then persists it.  An unset
or empty `REPORT_PATH` returns the missing-path failure string; a write
failure returns `"Failed to save report: <e>"`; only a successful write
stores the document in `state["final_report"]`.  The `report_content`
argument is accepted and unused, as in the source. -/
def format_report (env : FormatEnv) (st : PipelineState)
    (_report_content : String) : String × PipelineState :=
  let final_html := renderDocument env st
  if env.report_path.getD "" = "" then
    ("Failed to save report. REPORT_PATH missing.", st)
  else
    let report_path := env.normpath (env.report_path.getD "")
    match env.write report_path final_html with
    | .ok _ =>
        ("Report formatted successfully.", { st with final_report := some final_html })
    | .error e => ("Failed to save report: " ++ e, st)

/-- One `FunctionAgent(...)` declaration (`agents.py:270-295`): the fields of
the constructor call that are plain data (the `llm` argument is the external
model handle). -/
structure FunctionAgentDecl where
  name : String
  description : String
  system_prompt : String
  tools : List String
  can_handoff_to : List String
deriving DecidableEq, Repr

/-- Declaration `news_agent` (`agents.py:270-277`). -/
def news_agent : FunctionAgentDecl :=
  { name := "NewsAgent",
    description := "Fetches recent news about the US equity market.",
    system_prompt := "Fetch the latest news related to US stock markets and significant financial trends. Give some specific news around treasury data.",
    tools := ["fetch_market_news"],
    can_handoff_to := ["ForecastAgent"] }

/-- Declaration `forecast_agent` (`agents.py:279-286`). -/
def forecast_agent : FunctionAgentDecl :=
  { name := "ForecastAgent",
    description := "Analyzes news data and generates a near-term market forecast.",
    system_prompt := "Use recent news to predict the short-term trends in the stock market. Provide numerical details that could be useful to bank fixed income traders",
    tools := ["predict_market_trends"],
    can_handoff_to := ["ReportAgent"] }

/-- Declaration `report_agent` (`agents.py:288-295`). -/
def report_agent : FunctionAgentDecl :=
  { name := "ReportAgent",
    description := "Formats and exports the final report.",
    system_prompt := "Format the final market analysis report into Markdown.",
    tools := ["format_report"],
    can_handoff_to := [] }

/-- The `AgentWorkflow(...)` declaration (`agents.py:297-305`). -/
structure AgentWorkflowDecl where
  agents : List FunctionAgentDecl
  root_agent : String
  initial_state : PipelineState
deriving Repr

/-- Declaration `agent_workflow`: the three agents in order, root `NewsAgent`, and the
initial state dict (all three keys present). -/
def agent_workflow : AgentWorkflowDecl :=
  { agents := [news_agent, forecast_agent, report_agent],
    root_agent := "NewsAgent",
    initial_state :=
      { research_notes := some "",
        market_forecast := some "Not generated yet.",
        final_report := some "Not written yet." } }

/-- The declared hand-off edges of a workflow: one edge per entry of each
agent's `can_handoff_to` list. -/
def declaredEdges (ags : List FunctionAgentDecl) : List (String × String) :=
  (ags.map (fun a => a.can_handoff_to.map (fun t => (a.name, t)))).flatten

/-- Modelled from the spec: the hand-off validation lives in the external
`AgentWorkflow` runtime, not in `src/`; the spec says each stage "may hand
off only to" the targets declared in its `can_handoff_to` list and that "any
attempt to hand off outside declared edges is rejected".  A hand-off request
from `src` to `tgt` is accepted exactly when a declared agent named `src`
lists `tgt` as a target. -/
def handoffAccepted (ags : List FunctionAgentDecl) (src tgt : String) : Bool :=
  match ags.find? (fun a => a.name = src) with
  | none => false
  | some a => a.can_handoff_to.contains tgt

/-- Topological rank of the three stages, a certificate of acyclicity: every
declared edge strictly increases the rank. -/
def agentRank (s : String) : ℕ :=
  if s = "NewsAgent" then 0
  else if s = "ForecastAgent" then 1
  else if s = "ReportAgent" then 2
  else 3

/-- A response of the report server: a rendered page body, or a file served
as an attachment (`send_file(path, as_attachment=True)`). -/
inductive HttpResponse where
  | page (html : String)
  | attachment (path : String)
deriving DecidableEq, Repr

/-- Environment of the Flask endpoints: `os.path.exists`, reading the file,
and the external `render_template_string`. -/
structure ServerEnv where
  pathExists : String → Bool
  readFile : String → String
  render_template_string : String → String

/-- Embedding of `flask_api.home` (route `GET /`): the fallback page when the persisted
report file does not exist, otherwise the file's contents rendered as the
page. -/
def home (env : ServerEnv) (report_path : String) : HttpResponse :=
  if env.pathExists report_path = false then
    .page "<h1>No report available. Please generate one first.</h1>"
  else
    .page (env.render_template_string (env.readFile report_path))

/-- Embedding of `flask_api.download_pdf` (route `GET /download_pdf`): the fallback page
when the persisted report file does not exist, otherwise the file as an
attachment. -/
def download_pdf (env : ServerEnv) (report_path : String) : HttpResponse :=
  if env.pathExists report_path = false then
    .page "<h1>PDF report not found. Generate the report first.</h1>"
  else
    .attachment report_path

/-- The two declared routes of the Flask app. -/
def flaskRoutes : List String := ["/", "/download_pdf"]

/-- A quote-dict field that is a numeric rounded to two decimal places: an
integer number of hundredths. -/
def twoDecimalVal (v : PyVal) : Prop := ∃ n : ℤ, v = PyVal.num ((n : ℚ) / 100)

/-- A quote dict whose four fields are all numerics rounded to two decimal
places. -/
def numericQuote (q : QuoteDict) : Prop :=
  twoDecimalVal q.price ∧ twoDecimalVal q.prev_close ∧
  twoDecimalVal q.change ∧ twoDecimalVal q.change_pct

/-- Concrete fetch used by witnesses: the Dow symbol's fetch raises, the
other two return a two-session history. -/
def fetchEx : String → Option (List ℚ) :=
  fun s => if s = "^DJI" then none else some [4950, 5000]

/-- Concrete market environment for witnesses. -/
def marketEnvEx : MarketEnv :=
  { treasury_yield := 9/2, ten_year := 9/2, two_year := 5,
    fetch := fetchEx, complete := fun _ => "the forecast text" }

/-- Concrete state with non-empty research notes, for witnesses. -/
def stateReadyEx : PipelineState :=
  { research_notes := some "some news summary",
    market_forecast := none, final_report := none }

/-- Concrete state with both prose keys absent, for witnesses. -/
def stateBareEx : PipelineState :=
  { research_notes := none, market_forecast := none, final_report := none }

/-- Concrete formatting environment whose `REPORT_PATH` is unset. -/
def formatEnvNoPathEx : FormatEnv :=
  { fetch := fetchEx, markdownRender := id, report_path := none,
    normpath := id, write := fun _ _ => .ok () }

/-- Concrete formatting environment whose file write raises. -/
def formatEnvBadWriteEx : FormatEnv :=
  { fetch := fetchEx, markdownRender := id,
    report_path := some "C:/no/such/dir/report.html", normpath := id,
    write := fun _ _ => .error "No such file or directory" }

/-- Concrete server environment where the persisted report file is absent. -/
def serverEnvMissingEx : ServerEnv :=
  { pathExists := fun _ => false, readFile := fun _ => "",
    render_template_string := id }

/-- Concrete server environment where the persisted report file exists. -/
def serverEnvPresentEx : ServerEnv :=
  { pathExists := fun _ => true, readFile := fun _ => "<html>report</html>",
    render_template_string := id }

/-! ## Theorems -/

/-- C5: for every pair of fetched yield levels, `assess_yield_curve` reports
status `Inverted` iff the spread (ten-year minus two-year) is negative and
`Normal` otherwise; a spread of exactly zero yields `Normal`. -/
theorem assess_yield_curve_status (ten_year two_year : ℚ) :
    ((assess_yield_curve ten_year two_year).2 = "Inverted" ↔ ten_year - two_year < 0)
    ∧ ((assess_yield_curve ten_year two_year).2 = "Normal" ↔ ¬ ten_year - two_year < 0)
    ∧ (assess_yield_curve ten_year two_year).1 = ten_year - two_year
    ∧ assess_yield_curve ten_year ten_year = (0, "Normal") := by
  refine ⟨?_, ?_, rfl, ?_⟩
  · by_cases h : ten_year - two_year < 0 <;> simp [assess_yield_curve, h]
  · by_cases h : ten_year - two_year < 0 <;> simp [assess_yield_curve, h]
  · simp [assess_yield_curve]

/-- C4 counterexample: a fetch yielding zero trading sessions is a fetch with
fewer than two sessions, yet its reported change is the string `"N/A"`, not
zero. -/
theorem quote_no_sessions_cex :
    ([] : List ℚ).length < 2 ∧ (quoteFromHist []).change ≠ PyVal.num 0 := by
  refine ⟨by simp, ?_⟩
  simp [quoteFromHist, naQuote]

/-- C4 (amended): for every quote fetch that yields exactly one trading
session, the reported previous close equals the latest price and the
reported change is exactly zero (a zero-session fetch instead degrades to
the all-"N/A" quote). -/
theorem quote_single_session (x : ℚ) :
    (quoteFromHist [x]).prev_close = (quoteFromHist [x]).price
    ∧ (quoteFromHist [x]).change = PyVal.num 0
    ∧ quoteFromHist [x] =
        { price := .num (pyRound2 x), prev_close := .num (pyRound2 x),
          change := .num 0, change_pct := .num 0 } := by
  have h : quoteFromHist [x] =
      { price := .num (pyRound2 x), prev_close := .num (pyRound2 x),
        change := .num 0, change_pct := .num 0 } := by
    simp [quoteFromHist, pyRound2, roundHalfEven]
  exact ⟨by rw [h], by rw [h], h⟩

/-- C3: for every successful fetch with at least two sessions, the reported
change is `round(latest - previous, 2)` and the reported change percent is
`round((latest - previous) / previous * 100, 2)`; in particular the history
`[4950, 5000]` yields the quote `(5000.00, 4950.00, 50.00, 1.01)`. -/
theorem quote_change_formulas (front : List ℚ) (prev latest : ℚ) :
    quoteFromHist (front ++ [prev, latest]) =
      { price := .num (pyRound2 latest),
        prev_close := .num (pyRound2 prev),
        change := .num (pyRound2 (latest - prev)),
        change_pct := .num (pyRound2 ((latest - prev) / prev * 100)) }
    ∧ quoteFromHist [4950, 5000] =
      { price := .num 5000, prev_close := .num 4950,
        change := .num 50, change_pct := .num (101/100) } := by
  constructor
  · have hlast : (front ++ [prev, latest]).getLast? = some latest := by
      rw [show front ++ [prev, latest] = (front ++ [prev]) ++ [latest] by simp]
      exact List.getLast?_concat _
    have hlen : (front ++ [prev, latest]).length = front.length + 2 := by simp
    have hget : (front ++ [prev, latest]).getD (front.length + 2 - 2) 0 = prev := by
      have h2 : front.length + 2 - 2 = front.length := by omega
      rw [h2, List.getD_eq_getElem?_getD, List.getElem?_append_right (Nat.le_refl _)]
      simp
    unfold quoteFromHist
    rw [hlast]
    simp only [hlen, hget]
    rw [if_neg (by omega)]
  · norm_num [quoteFromHist, pyRound2, roundHalfEven, List.getD]

/-- Each per-index quote is either all-numeric (every field an integer number
of hundredths) or the all-"N/A" dict. -/
theorem quoteFromHist_shape (hist : List ℚ) :
    numericQuote (quoteFromHist hist) ∨ quoteFromHist hist = naQuote := by
  unfold quoteFromHist
  cases h : hist.getLast? with
  | none => right; rfl
  | some last_price =>
    left
    exact ⟨⟨roundHalfEven (last_price * 100), rfl⟩,
           ⟨roundHalfEven (_ * 100), rfl⟩,
           ⟨roundHalfEven (_ * 100), rfl⟩,
           ⟨roundHalfEven (_ * 100), rfl⟩⟩

/-- C10: every invocation of `get_stock_quotes` returns a mapping whose keys
are exactly `S&P 500`, `Dow Jones`, `Nasdaq` in that order, and each entry is
either all four fields numeric and rounded to two decimals, or all four the
string `"N/A"`. -/
theorem get_stock_quotes_shape (fetch : String → Option (List ℚ)) :
    ∃ q1 q2 q3 : QuoteDict,
      get_stock_quotes fetch =
        [("S&P 500", q1), ("Dow Jones", q2), ("Nasdaq", q3)]
      ∧ (numericQuote q1 ∨ q1 = naQuote)
      ∧ (numericQuote q2 ∨ q2 = naQuote)
      ∧ (numericQuote q3 ∨ q3 = naQuote) := by
  have fetched : ∀ r : Option (List ℚ),
      numericQuote (match r with | none => naQuote | some hist => quoteFromHist hist)
      ∨ (match r with | none => naQuote | some hist => quoteFromHist hist) = naQuote := by
    intro r
    cases r with
    | none => right; rfl
    | some hist => exact quoteFromHist_shape hist
  exact ⟨_, _, _, rfl, fetched (fetch ("S&P 500", "^GSPC").2),
         fetched (fetch ("Dow Jones", "^DJI").2),
         fetched (fetch ("Nasdaq", "^IXIC").2)⟩

/-- C6: if the fetch for one requested index raises, that index's entry in the
returned mapping is the all-"N/A" quote, while the key set is unchanged
(no sibling fetch is aborted) and every index whose fetch succeeds still
carries its computed quote; the call always returns this (possibly partial)
mapping instead of raising. -/
theorem get_stock_quotes_isolates_failures (fetch : String → Option (List ℚ))
    (nm sym : String) (hmem : (nm, sym) ∈ tickers) (hfail : fetch sym = none) :
    (nm, naQuote) ∈ get_stock_quotes fetch
    ∧ (get_stock_quotes fetch).map Prod.fst = tickers.map Prod.fst
    ∧ ∀ nm' sym' hist, (nm', sym') ∈ tickers → fetch sym' = some hist →
        (nm', quoteFromHist hist) ∈ get_stock_quotes fetch := by
  refine ⟨?_, rfl, ?_⟩
  · unfold get_stock_quotes
    refine List.mem_map.mpr ⟨(nm, sym), hmem, ?_⟩
    simp [hfail]
  · intro nm' sym' hist hmem' hok
    unfold get_stock_quotes
    refine List.mem_map.mpr ⟨(nm', sym'), hmem', ?_⟩
    simp [hok]

/-- C6 witness: with a fetch that raises for the Dow symbol and returns a
two-session history otherwise, the Dow entry degrades to all-"N/A" while the
other two indices keep their computed quotes and all three keys remain. -/
theorem get_stock_quotes_isolates_failures_witness :
    ("Dow Jones", naQuote) ∈ get_stock_quotes fetchEx
    ∧ (get_stock_quotes fetchEx).map Prod.fst = tickers.map Prod.fst
    ∧ ("S&P 500", quoteFromHist [4950, 5000]) ∈ get_stock_quotes fetchEx := by
  have h := get_stock_quotes_isolates_failures fetchEx "Dow Jones" "^DJI"
    (by simp [tickers]) (by simp [fetchEx])
  exact ⟨h.1, h.2.1, h.2.2 "S&P 500" "^GSPC" [4950, 5000]
    (by simp [tickers]) (by simp [fetchEx])⟩

/-- C1: the forecast stage returns the deterministic no-data sentinel and
never invokes the model completion call exactly when the state's
`research_notes` entry is empty (or absent); with non-empty notes it builds
the prompt, calls the model once, and returns the hand-off carrying the
completion of that prompt. -/
theorem predict_market_trends_guard (env : MarketEnv) (st : PipelineState) :
    ((predict_market_trends env st).modelCalled = false ↔
        st.research_notes.getD "" = "")
    ∧ (st.research_notes.getD "" = "" →
        predict_market_trends env st =
          { output := .text "No data available to generate forecast.",
            state := st, modelCalled := false })
    ∧ (st.research_notes.getD "" ≠ "" →
        (predict_market_trends env st).modelCalled = true
        ∧ (predict_market_trends env st).output =
            .handoff "ReportAgent" (env.complete (forecastPrompt env))
        ∧ (predict_market_trends env st).state =
            { st with market_forecast := some (env.complete (forecastPrompt env)) }) := by
  by_cases h : st.research_notes.getD "" = "" <;>
    simp [predict_market_trends, h]

/-- C1 witness: on the workflow's initial state (whose `research_notes` is
the empty string) the stage returns the sentinel without calling the model;
on a state with notes it calls the model. -/
theorem predict_market_trends_guard_witness :
    predict_market_trends marketEnvEx agent_workflow.initial_state =
      { output := .text "No data available to generate forecast.",
        state := agent_workflow.initial_state, modelCalled := false }
    ∧ (predict_market_trends marketEnvEx stateReadyEx).modelCalled = true :=
  ⟨(predict_market_trends_guard marketEnvEx agent_workflow.initial_state).2.1 rfl,
   ((predict_market_trends_guard marketEnvEx stateReadyEx).2.2 (by simp [stateReadyEx])).1⟩

/-- C2: the declared hand-off edges are exactly NewsAgent→ForecastAgent and
ForecastAgent→ReportAgent, ReportAgent declares none; every declared edge
strictly increases the topological rank (so the graph is acyclic); and a
hand-off request is accepted iff it is one of the declared edges. -/
theorem handoff_graph_exact (src tgt : String) :
    declaredEdges agent_workflow.agents =
      [("NewsAgent", "ForecastAgent"), ("ForecastAgent", "ReportAgent")]
    ∧ report_agent.can_handoff_to = []
    ∧ (declaredEdges agent_workflow.agents).all
        (fun e => decide (agentRank e.1 < agentRank e.2)) = true
    ∧ (handoffAccepted agent_workflow.agents src tgt = true ↔
        (src, tgt) ∈ declaredEdges agent_workflow.agents) := by
  refine ⟨rfl, rfl, rfl, ?_⟩
  rcases eq_or_ne src "NewsAgent" with h1 | h1
  · subst h1
    simp [handoffAccepted, agent_workflow, news_agent, forecast_agent,
      report_agent, declaredEdges]
  rcases eq_or_ne src "ForecastAgent" with h2 | h2
  · subst h2
    simp [handoffAccepted, agent_workflow, news_agent, forecast_agent,
      report_agent, declaredEdges]
  rcases eq_or_ne src "ReportAgent" with h3 | h3
  · subst h3
    simp [handoffAccepted, agent_workflow, news_agent, forecast_agent,
      report_agent, declaredEdges]
  · have hfind : agent_workflow.agents.find? (fun a => a.name = src) = none := by
      simp only [List.find?_eq_none, agent_workflow, news_agent, forecast_agent,
        report_agent, List.mem_cons, List.not_mem_nil, or_false, decide_eq_true_eq]
      rintro a (rfl | rfl | rfl) <;>
        simp_all [news_agent, forecast_agent, report_agent] <;>
        exact fun h => (by simp_all)
    unfold handoffAccepted
    rw [hfind]
    simp [declaredEdges, agent_workflow, news_agent, forecast_agent,
      report_agent, h1, h2, h3]

/-- C7: whenever `REPORT_PATH` is unconfigured (or empty) or the file write
fails, `format_report` returns a string beginning with (hence containing)
"Failed to save report" and leaves `state.final_report` at its prior value;
`final_report` is set — to the rendered document — exactly by the successful
write, which returns the success status. -/
theorem format_report_persistence (env : FormatEnv) (st : PipelineState)
    (report_content : String) :
    ((env.report_path.getD "" = "" ∨
        env.write (env.normpath (env.report_path.getD ""))
          (renderDocument env st) ≠ .ok ()) →
      (∃ rest, (format_report env st report_content).1 =
          "Failed to save report" ++ rest)
      ∧ ((format_report env st report_content).2).final_report =
          st.final_report)
    ∧ (env.report_path.getD "" ≠ "" →
        env.write (env.normpath (env.report_path.getD ""))
          (renderDocument env st) = .ok () →
        (format_report env st report_content).1 = "Report formatted successfully."
        ∧ ((format_report env st report_content).2).final_report =
            some (renderDocument env st)) := by
  by_cases hp : env.report_path.getD "" = ""
  · refine ⟨fun _ => ?_, fun hne _ => absurd hp hne⟩
    refine ⟨⟨". REPORT_PATH missing.", ?_⟩, ?_⟩ <;> simp [format_report, hp]
  · cases hw : env.write (env.normpath (env.report_path.getD ""))
        (renderDocument env st) with
    | ok u =>
      refine ⟨fun hOr => ?_, fun _ _ => ?_⟩
      · rcases hOr with h | h
        · exact absurd h hp
        · cases u; exact absurd rfl h
      · cases u; constructor <;> simp [format_report, hp, hw]
    | error e =>
      refine ⟨fun _ => ?_, fun _ hu => Except.noConfusion hu⟩
      refine ⟨⟨": " ++ e, ?_⟩, ?_⟩
      · have h1 : (format_report env st report_content).1 =
            "Failed to save report: " ++ e := by
          simp [format_report, hp, hw]
        rw [h1, ← String.append_assoc]
        rfl
      · simp [format_report, hp, hw]

/-- C7 witness: with a configured path whose write raises, the stage returns
the failure string and `final_report` keeps its prior value. -/
theorem format_report_persistence_witness :
    (∃ rest, (format_report formatEnvBadWriteEx stateReadyEx "content").1 =
        "Failed to save report" ++ rest)
    ∧ ((format_report formatEnvBadWriteEx stateReadyEx "content").2).final_report =
        stateReadyEx.final_report :=
  (format_report_persistence formatEnvBadWriteEx stateReadyEx "content").1
    (Or.inr (by simp [formatEnvBadWriteEx]))

/-- C8: the document `format_report` renders depends on the prose keys only
through their `get` fallbacks — an absent `research_notes` or
`market_forecast` is read as its placeholder text — so with both keys absent
the stage still renders the full document, built from the two placeholder
texts. -/
theorem format_report_placeholder_fallbacks (env : FormatEnv) (st : PipelineState) :
    renderDocument env st =
      renderDocument env
        { st with
          research_notes :=
            some (st.research_notes.getD "No research notes available."),
          market_forecast :=
            some (st.market_forecast.getD "Market forecast not generated.") }
    ∧ (st.research_notes = none → st.market_forecast = none →
        renderDocument env st =
          finalHtml
            (env.markdownRender
              (markdownContent "No research notes available."
                "Market forecast not generated."))
            (stockTable (get_stock_quotes env.fetch))) := by
  refine ⟨by simp [renderDocument], fun h1 h2 => ?_⟩
  simp [renderDocument, h1, h2]

/-- C8 witness: with both prose keys absent the rendered document is the one
built from the two placeholder texts. -/
theorem format_report_placeholder_fallbacks_witness :
    renderDocument formatEnvNoPathEx stateBareEx =
      finalHtml
        (formatEnvNoPathEx.markdownRender
          (markdownContent "No research notes available."
            "Market forecast not generated."))
        (stockTable (get_stock_quotes formatEnvNoPathEx.fetch)) :=
  (format_report_placeholder_fallbacks formatEnvNoPathEx stateBareEx).2 rfl rfl

/-- C9: when the persisted report file does not exist, `GET /` returns the
literal fallback page and `GET /download_pdf` returns a fallback page instead
of a file; when it exists, `GET /` renders the file's contents and
`GET /download_pdf` serves the file as an attachment. -/
theorem server_fallbacks (env : ServerEnv) (report_path : String) :
    (env.pathExists report_path = false →
       home env report_path =
         .page "<h1>No report available. Please generate one first.</h1>"
       ∧ download_pdf env report_path =
         .page "<h1>PDF report not found. Generate the report first.</h1>")
    ∧ (env.pathExists report_path = true →
       home env report_path =
         .page (env.render_template_string (env.readFile report_path))
       ∧ download_pdf env report_path = .attachment report_path) := by
  by_cases h : env.pathExists report_path <;> simp [home, download_pdf, h]

/-- C9 witness: a concrete server whose report file is absent serves both
fallback pages; one whose file exists serves the rendered contents and the
attachment. -/
theorem server_fallbacks_witness :
    (home serverEnvMissingEx "report.html" =
      .page "<h1>No report available. Please generate one first.</h1>"
    ∧ download_pdf serverEnvMissingEx "report.html" =
      .page "<h1>PDF report not found. Generate the report first.</h1>")
    ∧ (home serverEnvPresentEx "report.html" =
      .page "<html>report</html>"
    ∧ download_pdf serverEnvPresentEx "report.html" =
      .attachment "report.html") :=
  ⟨(server_fallbacks serverEnvMissingEx "report.html").1 rfl,
   (server_fallbacks serverEnvPresentEx "report.html").2 rfl⟩
